import Mathlib

/-!
Verification of the ui-backend inventory-query API: a shallow embedding of the
request pipeline (bearer-token extraction, query parsing, authorization
dispatch, inventory filtering, windowing, and the five HTTP handlers),
with theorems settling the specification claims.

Go strings are modelled as Lean strings; the inputs of interest are ASCII
HTTP header and query values, where Go byte indexing and Lean character
indexing agree.  Go functions returning `(T, error)` are modelled as
`T × Option String` (the error message) or `Except String T`; a Go runtime
panic is modelled as `Option.none` on the whole result.
-/

deriving instance DecidableEq for Except

namespace UIBackend

/-- maxItems constant of the server package: the default page size. -/
def maxItems : Int := 6

/-! ## Authentication: token extraction (getTokenFromAuthorizationHeader) -/

/-- Authentication error classification used by the spec for token
extraction failures. -/
inductive AuthError where
  | MissingCredential
  | MalformedCredential
deriving DecidableEq, Repr

/-- Embedding of getTokenFromAuthorizationHeader.  The Go code slices
`authorizationHeader[len("Bearer "):]` unconditionally, so a non-empty
header of fewer than 7 bytes makes the slice expression panic (modelled as
`none`); no check is made that the first 7 bytes actually read `Bearer `. -/
def getTokenFromAuthorizationHeader (header : String) : Option (Except AuthError String) :=
  if header = "" then
    some (Except.error AuthError.MissingCredential)
  else if header.length < 7 then
    none
  else
    let token := header.drop 7
    if token = "" then
      some (Except.error AuthError.MalformedCredential)
    else
      some (Except.ok token)

/-- The claim as the spec states it: token extraction never crashes, and a
token is only ever returned from a header of the exact form `Bearer <token>`
with a non-empty token. -/
def tokenExtractionClaim : Prop :=
  ∀ header : String, ∃ r, getTokenFromAuthorizationHeader header = some r ∧
    ∀ t, r = Except.ok t → header = "Bearer " ++ t ∧ t ≠ ""

/-! ## Query parsing -/

/-- The query parameters a request may carry; gin returns the empty string
for an absent parameter, which is how absence is modelled here. -/
structure Query where
  qlimit : String
  qskip : String
  qnamespace : String
  qname : String
  qtype : String
  qfailed : String
deriving DecidableEq, Repr

/-- Digit-string parsing used by atoi: `none` models a strconv error. -/
def digitsToNat (cs : List Char) : Option Nat :=
  if cs = [] then none
  else if cs.all Char.isDigit then
    some (cs.foldl (fun a c => a * 10 + (c.toNat - 48)) 0)
  else none

/-- Embedding of Go strconv.Atoi on the inputs of interest: an optional
sign followed by at least one decimal digit; anything else is a non-nil
error, modelled as `none`.  (Machine-int overflow is not reached by any
claim and is not modelled.) -/
def atoi (s : String) : Option Int :=
  match s.data with
  | [] => none
  | '+' :: rest => (digitsToNat rest).map Int.ofNat
  | '-' :: rest => (digitsToNat rest).map (fun n => -(n : Int))
  | cs => (digitsToNat cs).map Int.ofNat

/-- A non-aborting error response written with c.JSON: status code and the
string under the error key of the JSON body. -/
structure ErrWrite where
  status : Nat
  msg : String
deriving DecidableEq, Repr

/-- Embedding of getLimitAndSkipFromQuery: defaults limit to maxItems and
skip to 0; a present parameter is parsed with Atoi, and a parse failure
writes a 400 JSON error and returns early.  Go Atoi yields 0 alongside its
error, so a failed limit parse returns limit 0; the function cannot signal
failure to its caller beyond the write. -/
def getLimitAndSkipFromQuery (q : Query) : Int × Int × List ErrWrite :=
  if q.qlimit ≠ "" then
    match atoi q.qlimit with
    | none => (0, 0, [⟨400, "invalid limit parameter"⟩])
    | some l =>
      if q.qskip ≠ "" then
        match atoi q.qskip with
        | none => (l, 0, [⟨400, "invalid skip parameter"⟩])
        | some s => (l, s, [])
      else (l, 0, [])
  else
    if q.qskip ≠ "" then
      match atoi q.qskip with
      | none => (maxItems, 0, [⟨400, "invalid skip parameter"⟩])
      | some s => (maxItems, s, [])
    else (maxItems, 0, [])

/-- Embedding of Go strconv.ParseBool: the exact literal set it accepts. -/
def parseBool (s : String) : Option Bool :=
  if s = "1" ∨ s = "t" ∨ s = "T" ∨ s = "TRUE" ∨ s = "true" ∨ s = "True" then some true
  else if s = "0" ∨ s = "f" ∨ s = "F" ∨ s = "FALSE" ∨ s = "false" ∨ s = "False" then some false
  else none

/-- Embedding of getFailedOnlyFromQuery: defaults to false; a present
failed parameter is parsed with ParseBool, a failure writing a 400 JSON
error (ParseBool yields false alongside its error). -/
def getFailedOnlyFromQuery (q : Query) : Bool × List ErrWrite :=
  if q.qfailed ≠ "" then
    match parseBool q.qfailed with
    | none => (false, [⟨400, "invalid failed parameter"⟩])
    | some b => (b, [])
  else (false, [])

/-! ## Cluster type and getClusterFromQuery -/

/-- ClusterType literal from the external libsveltos API: the CAPI kind. -/
def clusterTypeCapi : String := "Capi"

/-- ClusterType literal from the external libsveltos API: the Sveltos kind. -/
def clusterTypeSveltos : String := "Sveltos"

/-- Embedding of Go strings.EqualFold on the ASCII literals compared here
(Unicode simple folding coincides with lower-casing on ASCII). -/
def eqFold (a b : String) : Bool := a.data.map Char.toLower == b.data.map Char.toLower

/-- Result of getClusterFromQuery: the three named return values (which Go
zero-initialises, the cluster type zero value being the empty string) plus
the JSON error writes the function performed. -/
structure ClusterQuery where
  nspace : String
  name : String
  ctype : String
  writes : List ErrWrite
deriving DecidableEq, Repr

/-- Embedding of getClusterFromQuery: requires namespace, name and type in
that order, writing a 400 JSON error and returning zero values when one is
missing; the type must case-insensitively equal one of the two cluster-kind
literals, anything else writing a 400 JSON error.  Like the limit/skip
parser it cannot signal failure to its caller beyond the write. -/
def getClusterFromQuery (q : Query) : ClusterQuery :=
  if q.qnamespace = "" then ⟨"", "", "", [⟨400, "namespace is required"⟩]⟩
  else if q.qname = "" then ⟨"", "", "", [⟨400, "name is required"⟩]⟩
  else if q.qtype = "" then ⟨"", "", "", [⟨400, "cluster type is required"⟩]⟩
  else if eqFold q.qtype clusterTypeSveltos then ⟨q.qnamespace, q.qname, clusterTypeSveltos, []⟩
  else if eqFold q.qtype clusterTypeCapi then ⟨q.qnamespace, q.qname, clusterTypeCapi, []⟩
  else ⟨"", "", "", [⟨400, "cluster type is incorrect"⟩]⟩

/-- The C7 claim as the spec states it, for every request: a missing type
parameter yields exactly the 400 cluster-type-required error write; a type
matching neither cluster-kind literal case-insensitively yields a 400
write; and the parse succeeds without writes only when the type matches
one of the two literals. -/
def typeParamClaim : Prop :=
  ∀ q : Query,
    (q.qtype = "" →
      (getClusterFromQuery q).writes = [⟨400, "cluster type is required"⟩]) ∧
    (¬ eqFold q.qtype clusterTypeSveltos → ¬ eqFold q.qtype clusterTypeCapi →
      ∃ w ∈ (getClusterFromQuery q).writes, w.status = 400) ∧
    ((getClusterFromQuery q).writes = [] →
      eqFold q.qtype clusterTypeSveltos ∨ eqFold q.qtype clusterTypeCapi)

/-! ## Windowing -/

/-- Windowing failure: negative limit or skip. -/
inductive RangeError where
  | InvalidRange
deriving DecidableEq, Repr

/-- Modelled from the spec: the bodies of getClustersInRange,
getHelmReleaseInRange, getResourcesInRange and
getFlattenedProfileStatusesInRange are not among the provided sources (only
their call sites are).  Spec 4.4 defines the shared windowing semantics:
fail with InvalidRange when limit or skip is negative; succeed with the
empty sequence when skip is at least the length; otherwise return the
contiguous slice from skip to the smaller of skip plus limit and the
length. -/
def getInRange {α : Type} (l : List α) (limit skip : Int) : Except RangeError (List α) :=
  if limit < 0 ∨ skip < 0 then Except.error RangeError.InvalidRange
  else if (l.length : Int) ≤ skip then Except.ok []
  else Except.ok ((l.drop skip.toNat).take limit.toNat)

/-! ## Inventory data model and the cluster filter engine -/

/-- corev1.ObjectReference restricted to the fields the server reads:
namespace and name identify a managed cluster in the inventory map. -/
structure ObjectReference where
  Namespace : String
  Name : String
deriving DecidableEq, Repr

/-- Label set of a cluster: the Go map from label key to value, modelled
as an association list (lookup takes the first binding of a key; a Go map
has at most one). -/
abbrev LabelSet : Type := List (String × String)

/-- Cached facts about a cluster.  The ClusterInfo struct is defined in a
manager file not among the provided sources; the filter engine reads only
its Labels field, which is all that is modelled. -/
structure ClusterInfo where
  Labels : LabelSet
deriving DecidableEq

/-- Operator of one Kubernetes label-selector requirement. -/
inductive LabelReqOp where
  | opIn
  | opNotIn
  | opExists
  | opDoesNotExist
deriving DecidableEq, Repr

/-- One Kubernetes label-selector requirement: a key, an operator and a
value set (equality and inequality are In and NotIn with a singleton
value set). -/
structure LabelRequirement where
  key : String
  op : LabelReqOp
  values : List String
deriving DecidableEq, Repr

/-- First value bound to a key in a label set. -/
def lookupLabel (s : LabelSet) (k : String) : Option String :=
  (s.find? (fun p => p.1 == k)).map (fun p => p.2)

/-- Modelled from the spec: labels.Requirement.Matches of the external
Kubernetes apimachinery library, with the standard selector semantics the
spec names — In holds when the key is present with a value in the set,
NotIn when the key is absent or its value is outside the set, Exists and
DoesNotExist on key presence. -/
def reqMatches (r : LabelRequirement) (s : LabelSet) : Bool :=
  match r.op with
  | LabelReqOp.opIn =>
    match lookupLabel s r.key with
    | some v => r.values.contains v
    | none => false
  | LabelReqOp.opNotIn =>
    match lookupLabel s r.key with
    | some v => !(r.values.contains v)
    | none => true
  | LabelReqOp.opExists => (lookupLabel s r.key).isSome
  | LabelReqOp.opDoesNotExist => (lookupLabel s r.key).isNone

/-- A label selector: a conjunction of requirements.  The empty selector
is the Empty selector of apimachinery and matches everything. -/
abbrev LabelSelector : Type := List LabelRequirement

/-- Modelled from the spec: labels.Selector.Empty of apimachinery. -/
def selectorEmpty (sel : LabelSelector) : Bool := sel.isEmpty

/-- Modelled from the spec: labels.Selector.Matches of apimachinery —
every requirement of the selector must be satisfied by the label set. -/
def selectorMatches (sel : LabelSelector) (s : LabelSet) : Bool :=
  sel.all (fun r => reqMatches r s)

/-- The clusterFilters struct: parsed query intent of the listing
endpoints. -/
structure clusterFilters where
  Namespace : String
  name : String
  labelSelector : LabelSelector
deriving DecidableEq

/-- One row of a listing result. -/
structure ManagedCluster where
  Namespace : String
  Name : String
  ClusterInfo : ClusterInfo
deriving DecidableEq

/-- Embedding of Go strings.Contains: the second argument occurs inside
the first as a contiguous (case-sensitive, unanchored) substring. -/
def goContains (s sub : String) : Bool := decide (sub.data <:+: s.data)

/-- Embedding of getManagedClusterData: iterates the inventory map (the
map modelled as an association list with pairwise-distinct keys; the claim
settled over it is iteration-order independent), skipping a cluster when a
non-empty namespace filter is not a substring of its namespace, when a
non-empty name filter is not a substring of its name, or when a non-empty
label selector does not match its label set, and appending a row for every
cluster that survives. -/
def getManagedClusterData (clusters : List (ObjectReference × ClusterInfo))
    (filters : clusterFilters) : List ManagedCluster :=
  clusters.foldl (fun data kv =>
    if filters.Namespace != "" && !(goContains kv.1.Namespace filters.Namespace) then data
    else if filters.name != "" && !(goContains kv.1.Name filters.name) then data
    else if !(selectorEmpty filters.labelSelector)
            && !(selectorMatches filters.labelSelector kv.2.Labels) then data
    else data ++ [⟨kv.1.Namespace, kv.1.Name, kv.2⟩]) []

/-- The condition under which getManagedClusterData keeps a cluster,
written as one boolean. -/
def keepCluster (filters : clusterFilters) (kv : ObjectReference × ClusterInfo) : Bool :=
  (filters.Namespace == "" || goContains kv.1.Namespace filters.Namespace) &&
  ((filters.name == "" || goContains kv.1.Name filters.name) &&
   (selectorEmpty filters.labelSelector || selectorMatches filters.labelSelector kv.2.Labels))

/-- The row getManagedClusterData emits for a kept cluster. -/
def clusterRow (kv : ObjectReference × ClusterInfo) : ManagedCluster :=
  ⟨kv.1.Namespace, kv.1.Name, kv.2⟩

/-! ## Authorization delegate (kubeconfig.go) -/

/-- The ResourceAttributes of a SubjectAccessReview issued by the
authorization functions, together with the user the review is about. -/
structure SARAttributes where
  verb : String
  group : String
  version : String
  resource : String
  nspace : String
  name : String
  user : String
deriving DecidableEq, Repr

/-- Group of the external libsveltos API (value from the external library;
only its distinctness from the CAPI group matters to the claims). -/
def sveltosGroup : String := "lib.projectsveltos.io"

/-- Version of the external libsveltos API. -/
def sveltosVersion : String := "v1beta1"

/-- SveltosClusterKind literal of the external libsveltos API. -/
def sveltosClusterKind : String := "SveltosCluster"

/-- Group of the external cluster-api API. -/
def capiGroup : String := "cluster.x-k8s.io"

/-- Version of the external cluster-api API. -/
def capiVersion : String := "v1beta1"

/-- ClusterKind literal of the external cluster-api API. -/
def capiClusterKind : String := "Cluster"

/-- The cluster-wide list review for the Sveltos cluster kind. -/
def sarListSveltos (user : String) : SARAttributes :=
  ⟨"list", sveltosGroup, sveltosVersion, sveltosClusterKind, "", "", user⟩

/-- The namespace/name-bound get review for the Sveltos cluster kind. -/
def sarGetSveltos (clusterNamespace clusterName user : String) : SARAttributes :=
  ⟨"get", sveltosGroup, sveltosVersion, sveltosClusterKind, clusterNamespace, clusterName, user⟩

/-- The cluster-wide list review for the CAPI cluster kind. -/
def sarListCapi (user : String) : SARAttributes :=
  ⟨"list", capiGroup, capiVersion, capiClusterKind, "", "", user⟩

/-- The namespace/name-bound get review for the CAPI cluster kind. -/
def sarGetCapi (clusterNamespace clusterName user : String) : SARAttributes :=
  ⟨"get", capiGroup, capiVersion, capiClusterKind, clusterNamespace, clusterName, user⟩

/-- Outcomes of the two outbound steps every authorization function takes:
clientset construction and the SubjectAccessReview create call, the latter
a function of the review being asked (an error models a transport or API
failure; the boolean is Status.Allowed). -/
structure AuthzEnv where
  newClientset : Except String Unit
  sarCreate : SARAttributes → Except String Bool

/-- Embedding of canListSveltosClusters: builds a clientset, issues a
cluster-wide list SubjectAccessReview for the Sveltos cluster kind, and
returns (Allowed, nil) on success or (false, err) on either failure. -/
def canListSveltosClusters (env : AuthzEnv) (user : String) : Bool × Option String :=
  match env.newClientset with
  | Except.error e => (false, some e)
  | Except.ok _ =>
    match env.sarCreate (sarListSveltos user) with
    | Except.error e => (false, some e)
    | Except.ok allowed => (allowed, none)

/-- Embedding of canGetSveltosCluster: namespace/name-bound get review for
the Sveltos cluster kind. -/
def canGetSveltosCluster (env : AuthzEnv) (clusterNamespace clusterName user : String) :
    Bool × Option String :=
  match env.newClientset with
  | Except.error e => (false, some e)
  | Except.ok _ =>
    match env.sarCreate (sarGetSveltos clusterNamespace clusterName user) with
    | Except.error e => (false, some e)
    | Except.ok allowed => (allowed, none)

/-- Embedding of canListCAPIClusters: cluster-wide list review for the
CAPI cluster kind. -/
def canListCAPIClusters (env : AuthzEnv) (user : String) : Bool × Option String :=
  match env.newClientset with
  | Except.error e => (false, some e)
  | Except.ok _ =>
    match env.sarCreate (sarListCapi user) with
    | Except.error e => (false, some e)
    | Except.ok allowed => (allowed, none)

/-- Embedding of canGetCAPICluster: namespace/name-bound get review for
the CAPI cluster kind. -/
def canGetCAPICluster (env : AuthzEnv) (clusterNamespace clusterName user : String) :
    Bool × Option String :=
  match env.newClientset with
  | Except.error e => (false, some e)
  | Except.ok _ =>
    match env.sarCreate (sarGetCapi clusterNamespace clusterName user) with
    | Except.error e => (false, some e)
    | Except.ok allowed => (allowed, none)

/-- Embedding of canGetCluster: dispatches to the CAPI check exactly when
the cluster type equals the CAPI literal, and to the Sveltos check for
every other value. -/
def canGetCluster (env : AuthzEnv) (clusterNamespace clusterName user : String)
    (clusterType : String) : Bool × Option String :=
  if clusterType = clusterTypeCapi then
    canGetCAPICluster env clusterNamespace clusterName user
  else
    canGetSveltosCluster env clusterNamespace clusterName user

/-- Environment in which clientset construction succeeds and every review
is allowed; used to evaluate theorems at concrete points. -/
def envAllow : AuthzEnv := ⟨Except.ok (), fun _ => Except.ok true⟩

/-- Environment whose review call fails with a transport error. -/
def envSarFail : AuthzEnv := ⟨Except.ok (), fun _ => Except.error "transport failure"⟩

/-- Environment whose clientset construction fails. -/
def envClientsetFail : AuthzEnv := ⟨Except.error "no clientset", fun _ => Except.ok true⟩

/-! ## Profile statuses and flattening -/

/-- One per-feature sub-status of a profile on a cluster. -/
structure FeatureStatus where
  featureID : String
  failed : Bool
deriving DecidableEq, Repr

/-- Status of one profile against one cluster: a bundle of per-feature
sub-statuses.  The struct lives in a manager file not among the provided
sources; only the fields flattening reads are modelled. -/
structure ClusterProfileStatus where
  profileName : String
  features : List FeatureStatus
deriving DecidableEq, Repr

/-- One flattened row: a profile paired with one of its per-feature
sub-statuses. -/
structure FlattenedProfileStatus where
  profileName : String
  feature : FeatureStatus
deriving DecidableEq, Repr

/-- Modelled from the spec: flattenProfileStatuses is not among the
provided sources (only its call site is).  Spec 4.5: flattening emits one
row per per-feature sub-status, and with failedOnly true drops rows whose
status is not a failure, before sorting and windowing. -/
def flattenProfileStatuses (l : List ClusterProfileStatus) (failedOnly : Bool) :
    List FlattenedProfileStatus :=
  (l.flatMap (fun cps => cps.features.map (fun f => ⟨cps.profileName, f⟩))).filter
    (fun r => !failedOnly || r.feature.failed)

/-! ## Handler models

Each handler is modelled as a function of the request query, an
environment holding the outcomes of its outbound calls (token validation,
permission check, inventory fetch — external collaborators whose bodies
are not part of this core), and the in-place sort it applies, returning
the ordered list of response writes it performs together with the ordered
list of pipeline events (authentication, authorization, inventory fetch).
validateToken is abstracted to its result; on failure it and the handler
both write a 401, folded here into the single handler abort of the same
status. -/

/-- Pipeline events of one request, in the order they occur. -/
inductive Event where
  | evValidateToken
  | evAuthorize
  | evFetch
deriving DecidableEq, Repr

/-- One write a handler performs on the gin context: a JSON error body, a
JSON success payload carrying the total count and the windowed items, or
an AbortWithError that attaches an error and writes a status.  The HTTP
status of the response is that of the first write (later status writes
are superfluous). -/
inductive Write (α : Type) where
  | jsonErr (status : Nat) (msg : String)
  | jsonResult (status : Nat) (total : Nat) (items : List α)
  | abortErr (status : Nat) (msg : String)
deriving DecidableEq

/-- Injection of a parser error write into a handler write. -/
def Write.ofErr {α : Type} (e : ErrWrite) : Write α := Write.jsonErr e.status e.msg

/-- Status code carried by a write. -/
def Write.status {α : Type} : Write α → Nat
  | Write.jsonErr s _ => s
  | Write.jsonResult s _ _ => s
  | Write.abortErr s _ => s

/-- Result of a handler: its writes and its pipeline events, in order. -/
structure HandlerOut (α : Type) where
  writes : List (Write α)
  events : List Event
deriving DecidableEq

/-- Environment of the two cluster-listing handlers: the parsed filters
(getClusterFiltersFromQuery is not among the provided sources and is
abstracted to its result), the token-validation result, the list-all
verdict, and the inventory fetch as a function of the user and the
list-all verdict. -/
structure ListEnv where
  filtersRes : Except String clusterFilters
  validateTokenRes : Except String String
  canListRes : Bool × Option String
  fetchRes : String → Bool → Except String (List (ObjectReference × ClusterInfo))

/-- Embedding of getManagedCAPIClusters and getManagedSveltosClusters
(their bodies are identical up to which manager methods the environment
stands for): parse limit and skip, parse filters (aborting 400 on
failure), validate the token (aborting 401), ask the coarse list-all
permission (aborting 401 on a check error — an explicit deny is not an
abort but scopes the fetch), fetch the inventory (aborting 401 on
failure), filter, sort in place, window (aborting 400 on a range error)
and respond 200 with the pre-windowing length as the total. -/
def listClustersHandler (q : Query) (env : ListEnv)
    (sortFn : List ManagedCluster → List ManagedCluster) : HandlerOut ManagedCluster :=
  let ls := getLimitAndSkipFromQuery q
  let w0 : List (Write ManagedCluster) := ls.2.2.map Write.ofErr
  match env.filtersRes with
  | Except.error e => ⟨w0 ++ [Write.abortErr 400 e], []⟩
  | Except.ok filters =>
    match env.validateTokenRes with
    | Except.error e => ⟨w0 ++ [Write.abortErr 401 e], [Event.evValidateToken]⟩
    | Except.ok user =>
      match env.canListRes with
      | (_, some e) =>
        ⟨w0 ++ [Write.abortErr 401 e], [Event.evValidateToken, Event.evAuthorize]⟩
      | (canListAll, none) =>
        match env.fetchRes user canListAll with
        | Except.error e =>
          ⟨w0 ++ [Write.abortErr 401 e],
           [Event.evValidateToken, Event.evAuthorize, Event.evFetch]⟩
        | Except.ok clusters =>
          let sorted := sortFn (getManagedClusterData clusters filters)
          match getInRange sorted ls.1 ls.2.1 with
          | Except.error _ =>
            ⟨w0 ++ [Write.abortErr 400 "invalid range"],
             [Event.evValidateToken, Event.evAuthorize, Event.evFetch]⟩
          | Except.ok res =>
            ⟨w0 ++ [Write.jsonResult 200 sorted.length res],
             [Event.evValidateToken, Event.evAuthorize, Event.evFetch]⟩

/-- Environment of the per-cluster handlers: the token-validation result,
the per-resource get verdict as a function of namespace, name, user and
cluster type (manager.canGetCluster), and the inventory fetch as a
function of namespace, name and cluster type. -/
structure PerClusterEnv (α : Type) where
  validateTokenRes : Except String String
  canGetRes : String → String → String → String → Bool × Option String
  fetchRes : String → String → String → Except String (List α)

/-- The pipeline the two per-cluster inventory handlers share after query
parsing: validate the token (aborting 401), run the per-cluster get check
(aborting 401 on a check error, and aborting 401 with the fixed
no-permissions message on an explicit deny), fetch the inventory items
(aborting 400 on failure), sort in place, window (aborting 400) and
respond 200 with the pre-windowing length as the total.  w0 holds the
parse-error writes already performed, in the order the handler parsed. -/
def perClusterPipeline {α : Type} (w0 : List (Write α)) (nspace name ctype : String)
    (limit skip : Int) (env : PerClusterEnv α) (sortFn : List α → List α) : HandlerOut α :=
  match env.validateTokenRes with
  | Except.error e => ⟨w0 ++ [Write.abortErr 401 e], [Event.evValidateToken]⟩
  | Except.ok user =>
    match env.canGetRes nspace name user ctype with
    | (_, some e) =>
      ⟨w0 ++ [Write.abortErr 401 e], [Event.evValidateToken, Event.evAuthorize]⟩
    | (canGet, none) =>
      if !canGet then
        ⟨w0 ++ [Write.abortErr 401 "no permissions to access this cluster"],
         [Event.evValidateToken, Event.evAuthorize]⟩
      else
        match env.fetchRes nspace name ctype with
        | Except.error e =>
          ⟨w0 ++ [Write.abortErr 400 e],
           [Event.evValidateToken, Event.evAuthorize, Event.evFetch]⟩
        | Except.ok items =>
          let sorted := sortFn items
          match getInRange sorted limit skip with
          | Except.error _ =>
            ⟨w0 ++ [Write.abortErr 400 "invalid range"],
             [Event.evValidateToken, Event.evAuthorize, Event.evFetch]⟩
          | Except.ok res =>
            ⟨w0 ++ [Write.jsonResult 200 sorted.length res],
             [Event.evValidateToken, Event.evAuthorize, Event.evFetch]⟩

/-- Embedding of getDeployedHelmCharts: parse the cluster coordinates,
then limit and skip, then run the shared per-cluster pipeline. -/
def getDeployedHelmChartsHandler {α : Type} (q : Query) (env : PerClusterEnv α)
    (sortFn : List α → List α) : HandlerOut α :=
  let cq := getClusterFromQuery q
  let ls := getLimitAndSkipFromQuery q
  perClusterPipeline ((cq.writes ++ ls.2.2).map Write.ofErr)
    cq.nspace cq.name cq.ctype ls.1 ls.2.1 env sortFn

/-- Embedding of getDeployedResources: identical pipeline to the helm
chart handler except that limit and skip are parsed before the cluster
coordinates, so parse-error writes appear in that order. -/
def getDeployedResourcesHandler {α : Type} (q : Query) (env : PerClusterEnv α)
    (sortFn : List α → List α) : HandlerOut α :=
  let ls := getLimitAndSkipFromQuery q
  let cq := getClusterFromQuery q
  perClusterPipeline ((ls.2.2 ++ cq.writes).map Write.ofErr)
    cq.nspace cq.name cq.ctype ls.1 ls.2.1 env sortFn

/-- Environment of the cluster-status handler: the token-validation
result, the per-cluster get verdict, and the profile statuses the manager
returns for the cluster (this manager read has no error path). -/
structure StatusEnv where
  validateTokenRes : Except String String
  canGetRes : String → String → String → String → Bool × Option String
  statuses : String → String → String → List ClusterProfileStatus

/-- Embedding of getClusterStatus: parse failed-only, limit and skip, and
the cluster coordinates, validate the token (aborting 401), run the
per-cluster get check (aborting 401 on error or deny), read the profile
statuses from the manager, flatten them under failed-only, sort in place,
window (aborting 400) and respond 200 with the pre-windowing flattened
length as totalResources. -/
def getClusterStatusHandler (q : Query) (env : StatusEnv)
    (sortFn : List FlattenedProfileStatus → List FlattenedProfileStatus) :
    HandlerOut FlattenedProfileStatus :=
  let fo := getFailedOnlyFromQuery q
  let ls := getLimitAndSkipFromQuery q
  let cq := getClusterFromQuery q
  let w0 : List (Write FlattenedProfileStatus) :=
    (fo.2 ++ ls.2.2 ++ cq.writes).map Write.ofErr
  match env.validateTokenRes with
  | Except.error e => ⟨w0 ++ [Write.abortErr 401 e], [Event.evValidateToken]⟩
  | Except.ok user =>
    match env.canGetRes cq.nspace cq.name user cq.ctype with
    | (_, some e) =>
      ⟨w0 ++ [Write.abortErr 401 e], [Event.evValidateToken, Event.evAuthorize]⟩
    | (canGet, none) =>
      if !canGet then
        ⟨w0 ++ [Write.abortErr 401 "no permissions to access this cluster"],
         [Event.evValidateToken, Event.evAuthorize]⟩
      else
        let flattened := flattenProfileStatuses (env.statuses cq.nspace cq.name cq.ctype) fo.1
        let sorted := sortFn flattened
        match getInRange sorted ls.1 ls.2.1 with
        | Except.error _ =>
          ⟨w0 ++ [Write.abortErr 400 "invalid range"],
           [Event.evValidateToken, Event.evAuthorize, Event.evFetch]⟩
        | Except.ok res =>
          ⟨w0 ++ [Write.jsonResult 200 sorted.length res],
           [Event.evValidateToken, Event.evAuthorize, Event.evFetch]⟩

/-! ## Concrete evaluation points -/

/-- A three-cluster inventory used to evaluate the handlers concretely. -/
def invThree : List (ObjectReference × ClusterInfo) :=
  [(⟨"team-a", "c1"⟩, ⟨[]⟩), (⟨"team-b", "c2"⟩, ⟨[]⟩), (⟨"team-c", "c3"⟩, ⟨[]⟩)]

/-- List-endpoint environment in which parsing, authentication and the
coarse permission check all succeed and the fetch returns the
three-cluster inventory. -/
def envListOk : ListEnv :=
  ⟨Except.ok ⟨"", "", []⟩, Except.ok "alice", (true, none), fun _ _ => Except.ok invThree⟩

/-- List-endpoint environment whose coarse permission check fails with a
transport error. -/
def envListCanListFail : ListEnv :=
  ⟨Except.ok ⟨"", "", []⟩, Except.ok "alice", (false, some "transport failure"),
   fun _ _ => Except.ok []⟩

/-- List-endpoint environment whose token validation fails. -/
def envListAuthFail : ListEnv :=
  ⟨Except.ok ⟨"", "", []⟩, Except.error "failed to validate token", (true, none),
   fun _ _ => Except.ok invThree⟩

/-- Per-cluster environment in which everything succeeds and the fetch
returns three items. -/
def envPerClusterOk : PerClusterEnv Nat :=
  ⟨Except.ok "alice", fun _ _ _ _ => (true, none), fun _ _ _ => Except.ok [10, 11, 12]⟩

/-- Per-cluster environment whose get check denies. -/
def envPerClusterDeny : PerClusterEnv Nat :=
  ⟨Except.ok "alice", fun _ _ _ _ => (false, none), fun _ _ _ => Except.ok [10, 11, 12]⟩

/-- Per-cluster environment whose get check fails with a transport
error. -/
def envPerClusterErr : PerClusterEnv Nat :=
  ⟨Except.ok "alice", fun _ _ _ _ => (false, some "transport failure"),
   fun _ _ _ => Except.ok [10, 11, 12]⟩

/-- Status-endpoint environment in which everything succeeds, with two
profiles of mixed feature outcomes. -/
def envStatusOk : StatusEnv :=
  ⟨Except.ok "alice", fun _ _ _ _ => (true, none),
   fun _ _ _ => [⟨"p1", [⟨"helm", true⟩, ⟨"resources", false⟩]⟩, ⟨"p2", [⟨"helm", false⟩]⟩]⟩

/-- A query with every parameter absent. -/
def emptyQuery : Query := ⟨"", "", "", "", "", ""⟩

/-- A per-cluster query naming a Sveltos cluster, limit 2. -/
def perClusterQuery : Query := ⟨"2", "", "team-a", "c1", "Sveltos", ""⟩

/-! ## Claim theorems -/

/-- C1 counterexample: the claim that token extraction handles every
possible header without crashing and only ever accepts headers of the
exact form `Bearer <token>` is false — the header `abc` makes the slice
expression panic, and the header `Token: abcd` (not of the Bearer form)
is accepted with token `abcd`. -/
theorem claim_C1_counterexample :
    ¬ tokenExtractionClaim ∧
    getTokenFromAuthorizationHeader "abc" = none ∧
    getTokenFromAuthorizationHeader "Token: abcd" = some (Except.ok "abcd") := by
  refine ⟨?_, by decide, by decide⟩
  intro h
  obtain ⟨r, hr, -⟩ := h "abc"
  have hnone : getTokenFromAuthorizationHeader "abc" = none := by decide
  rw [hnone] at hr
  exact Option.noConfusion hr

/-- C1 (amended): token extraction fails with MissingCredential when the
header is absent; a present header shorter than the 7-byte prefix
`Bearer ` makes the slice expression panic; otherwise the first 7 bytes
are stripped without being checked, failing with MalformedCredential when
the remainder is empty and returning the remainder as the token for any
other header of length at least 7, whatever its form. -/
theorem claim_C1_amended (header : String) :
    (header = "" →
      getTokenFromAuthorizationHeader header = some (Except.error AuthError.MissingCredential)) ∧
    (header ≠ "" → header.length < 7 →
      getTokenFromAuthorizationHeader header = none) ∧
    (7 ≤ header.length → header.drop 7 = "" →
      getTokenFromAuthorizationHeader header = some (Except.error AuthError.MalformedCredential)) ∧
    (∀ t, getTokenFromAuthorizationHeader header = some (Except.ok t) →
      t = header.drop 7 ∧ t ≠ "" ∧ 7 ≤ header.length) := by
  refine ⟨?_, ?_, ?_, ?_⟩
  · intro h
    simp [getTokenFromAuthorizationHeader, h]
  · intro h h7
    simp [getTokenFromAuthorizationHeader, h, h7]
  · intro h7 hd
    have hne : header ≠ "" := by
      intro he
      rw [he] at h7
      simp at h7
    have hlt : ¬ header.length < 7 := Nat.not_lt.mpr h7
    simp [getTokenFromAuthorizationHeader, hne, hlt, hd]
  · intro t h
    by_cases h1 : header = ""
    · simp [getTokenFromAuthorizationHeader, h1] at h
    · by_cases h2 : header.length < 7
      · simp [getTokenFromAuthorizationHeader, h1, h2] at h
      · by_cases h3 : header.drop 7 = ""
        · simp [getTokenFromAuthorizationHeader, h1, h2, h3] at h
        · simp [getTokenFromAuthorizationHeader, h1, h2, h3] at h
          exact ⟨h.symm, fun hc => h3 (by rw [hc] at h; exact h), Nat.not_lt.mp h2⟩

/-- C1 witness: the amended theorem applied at the empty header, at a
short header, and at a header of a different form. -/
theorem claim_C1_witness :
    getTokenFromAuthorizationHeader "" = some (Except.error AuthError.MissingCredential) ∧
    getTokenFromAuthorizationHeader "ab" = none ∧
    ("tok" = "Token: tok".drop 7 ∧ "tok" ≠ "" ∧ 7 ≤ "Token: tok".length) := by
  refine ⟨(claim_C1_amended "").1 rfl,
          (claim_C1_amended "ab").2.1 (by decide) (by decide),
          (claim_C1_amended "Token: tok").2.2.2 "tok" (by decide)⟩

/-- C4: windowing fails with InvalidRange exactly when limit or skip is
negative; with non-negative arguments it returns the contiguous slice
from skip of at most limit elements, which is empty whenever skip is at
least the length of the sequence (success, not an error). -/
theorem claim_C4 {α : Type} (l : List α) (limit skip : Int) :
    (limit < 0 ∨ skip < 0 → getInRange l limit skip = Except.error RangeError.InvalidRange) ∧
    (0 ≤ limit → 0 ≤ skip → (l.length : Int) ≤ skip → getInRange l limit skip = Except.ok []) ∧
    (0 ≤ limit → 0 ≤ skip →
      getInRange l limit skip = Except.ok ((l.drop skip.toNat).take limit.toNat)) := by
  refine ⟨?_, ?_, ?_⟩
  · intro h
    unfold getInRange
    rw [if_pos h]
  · intro hl hs hlen
    unfold getInRange
    rw [if_neg (by omega), if_pos hlen]
  · intro hl hs
    unfold getInRange
    rw [if_neg (by omega)]
    by_cases hlen : (l.length : Int) ≤ skip
    · rw [if_pos hlen]
      have hd : l.length ≤ skip.toNat := by omega
      simp [List.drop_eq_nil_of_le hd]
    · rw [if_neg hlen]

/-- C4 witness: the windowing theorem applied at a concrete sequence with
a negative limit, a skip past the end, and an interior window. -/
theorem claim_C4_witness :
    getInRange [0, 1, 2, 3] (-1) 2 = Except.error RangeError.InvalidRange ∧
    getInRange [0, 1, 2, 3] 2 9 = Except.ok ([] : List Nat) ∧
    getInRange [0, 1, 2, 3] 2 1 = Except.ok [1, 2] := by
  refine ⟨(claim_C4 [0, 1, 2, 3] (-1) 2).1 (Or.inl (by decide)),
          (claim_C4 [0, 1, 2, 3] 2 9).2.1 (by decide) (by decide) (by decide), ?_⟩
  have h := (claim_C4 [0, 1, 2, 3] 2 1).2.2 (by decide) (by decide)
  rw [h]
  rfl

/-- C9: an absent limit parameter parses to the default 6, and an absent
skip parameter parses to the default 0, whatever the other parameters
hold. -/
theorem claim_C9 (q : Query) :
    (q.qlimit = "" → (getLimitAndSkipFromQuery q).1 = 6) ∧
    (q.qskip = "" → (getLimitAndSkipFromQuery q).2.1 = 0) := by
  constructor
  · intro h
    unfold getLimitAndSkipFromQuery
    rw [if_neg (by simp [h])]
    by_cases hs : q.qskip ≠ ""
    · rw [if_pos hs]
      cases hA : atoi q.qskip <;> simp [maxItems]
    · rw [if_neg hs]
      simp [maxItems]
  · intro h
    unfold getLimitAndSkipFromQuery
    by_cases hl : q.qlimit ≠ ""
    · rw [if_pos hl]
      cases hA : atoi q.qlimit with
      | none => simp
      | some l =>
        simp only
        rw [if_neg (by simp [h])]
    · rw [if_neg hl]
      rw [if_neg (by simp [h])]

/-- C9 witness: the defaults theorem applied at the empty query. -/
theorem claim_C9_witness :
    (getLimitAndSkipFromQuery ⟨"", "", "", "", "", ""⟩).1 = 6 ∧
    (getLimitAndSkipFromQuery ⟨"", "", "", "", "", ""⟩).2.1 = 0 :=
  ⟨(claim_C9 ⟨"", "", "", "", "", ""⟩).1 rfl, (claim_C9 ⟨"", "", "", "", "", ""⟩).2 rfl⟩

/-- C7 counterexample: the claim as stated is false for the request with
every parameter absent — the type parameter is missing, yet the response
write is the 400 namespace-is-required error, not the
cluster-type-required body, because namespace and name are checked
first. -/
theorem claim_C7_counterexample : ¬ typeParamClaim := by
  intro h
  have h1 := (h ⟨"", "", "", "", "", ""⟩).1 rfl
  exact absurd h1 (by decide)

/-- C7 (amended): provided namespace and name are present, a missing type
parameter yields exactly the 400 cluster-type-required error write, a type
matching neither cluster-kind literal case-insensitively yields a 400
write, and the parse succeeds without writes exactly when the type
case-insensitively matches one of the two literals. -/
theorem claim_C7_amended (q : Query) (hns : q.qnamespace ≠ "") (hn : q.qname ≠ "") :
    (q.qtype = "" →
      (getClusterFromQuery q).writes = [⟨400, "cluster type is required"⟩]) ∧
    (¬ eqFold q.qtype clusterTypeSveltos → ¬ eqFold q.qtype clusterTypeCapi →
      ∃ w ∈ (getClusterFromQuery q).writes, w.status = 400) ∧
    ((getClusterFromQuery q).writes = [] ↔
      eqFold q.qtype clusterTypeSveltos ∨ eqFold q.qtype clusterTypeCapi) := by
  unfold getClusterFromQuery
  rw [if_neg hns, if_neg hn]
  by_cases ht : q.qtype = ""
  · rw [if_pos ht]
    refine ⟨fun _ => rfl, fun _ _ => ⟨⟨400, "cluster type is required"⟩, by simp, rfl⟩, ?_⟩
    constructor
    · intro hw
      exact absurd hw (by simp)
    · intro hm
      rw [ht] at hm
      revert hm
      decide
  · rw [if_neg ht]
    by_cases hs : eqFold q.qtype clusterTypeSveltos
    · rw [if_pos hs]
      exact ⟨fun he => absurd he ht, fun h1 _ => absurd hs h1, by simp [hs]⟩
    · rw [if_neg hs]
      by_cases hc : eqFold q.qtype clusterTypeCapi
      · rw [if_pos hc]
        exact ⟨fun he => absurd he ht, fun _ h2 => absurd hc h2, by simp [hc]⟩
      · rw [if_neg hc]
        refine ⟨fun he => absurd he ht,
                fun _ _ => ⟨⟨400, "cluster type is incorrect"⟩, by simp, rfl⟩, ?_⟩
        constructor
        · intro hw
          exact absurd hw (by simp)
        · intro hm
          cases hm with
          | inl h => exact absurd h hs
          | inr h => exact absurd h hc

/-- C7 witness: the amended theorem applied at a request with namespace
and name present and the type absent, and at one with an unrecognized
type. -/
theorem claim_C7_witness :
    (getClusterFromQuery ⟨"", "", "prod", "c1", "", ""⟩).writes =
      [⟨400, "cluster type is required"⟩] ∧
    ∃ w ∈ (getClusterFromQuery ⟨"", "", "prod", "c1", "gke", ""⟩).writes, w.status = 400 := by
  refine ⟨(claim_C7_amended ⟨"", "", "prod", "c1", "", ""⟩ (by decide) (by decide)).1 rfl,
          (claim_C7_amended ⟨"", "", "prod", "c1", "gke", ""⟩ (by decide) (by decide)).2.1
            (by decide) (by decide)⟩

/-- C10: canGetCluster dispatches the CAPI get check exactly on the CAPI
cluster-type literal and issues the Sveltos get check for every other
value, including the empty string — the zero value getClusterFromQuery
returns whenever the type parameter is invalid or missing. -/
theorem claim_C10 :
    (∀ env ns nm user,
      canGetCluster env ns nm user clusterTypeCapi = canGetCAPICluster env ns nm user) ∧
    (∀ env ns nm user t, t ≠ clusterTypeCapi →
      canGetCluster env ns nm user t = canGetSveltosCluster env ns nm user) ∧
    (∀ q : Query, ¬ eqFold q.qtype clusterTypeSveltos → ¬ eqFold q.qtype clusterTypeCapi →
      (getClusterFromQuery q).ctype = "" ∧
      ∀ env ns nm user, canGetCluster env ns nm user (getClusterFromQuery q).ctype =
        canGetSveltosCluster env ns nm user) := by
  refine ⟨?_, ?_, ?_⟩
  · intro env ns nm user
    unfold canGetCluster
    rw [if_pos rfl]
  · intro env ns nm user t h
    unfold canGetCluster
    rw [if_neg h]
  · intro q hs hc
    have hz : (getClusterFromQuery q).ctype = "" := by
      unfold getClusterFromQuery
      by_cases h1 : q.qnamespace = ""
      · rw [if_pos h1]
      · rw [if_neg h1]
        by_cases h2 : q.qname = ""
        · rw [if_pos h2]
        · rw [if_neg h2]
          by_cases h3 : q.qtype = ""
          · rw [if_pos h3]
          · rw [if_neg h3, if_neg hs, if_neg hc]
    refine ⟨hz, fun env ns nm user => ?_⟩
    rw [hz]
    unfold canGetCluster
    rw [if_neg (by decide)]

/-- C10 witness: the dispatch theorem applied at the zero-value cluster
type and at a request with an invalid type parameter. -/
theorem claim_C10_witness :
    canGetCluster envAllow "ns" "cl" "alice" "" = canGetSveltosCluster envAllow "ns" "cl" "alice" ∧
    (getClusterFromQuery ⟨"", "", "ns", "cl", "gke", ""⟩).ctype = "" := by
  refine ⟨claim_C10.2.1 envAllow "ns" "cl" "alice" "" (by decide),
          (claim_C10.2.2 ⟨"", "", "ns", "cl", "gke", ""⟩ (by decide) (by decide)).1⟩

/-- The three-way skip chain of getManagedClusterData, written as one
keep-or-skip decision. -/
theorem keep_step_eq (filters : clusterFilters) (kv : ObjectReference × ClusterInfo)
    (data : List ManagedCluster) :
    (if filters.Namespace != "" && !(goContains kv.1.Namespace filters.Namespace) then data
     else if filters.name != "" && !(goContains kv.1.Name filters.name) then data
     else if !(selectorEmpty filters.labelSelector)
             && !(selectorMatches filters.labelSelector kv.2.Labels) then data
     else data ++ [⟨kv.1.Namespace, kv.1.Name, kv.2⟩])
    = if keepCluster filters kv then data ++ [clusterRow kv] else data := by
  unfold keepCluster clusterRow
  by_cases hA : filters.Namespace = "" <;>
    by_cases hB : filters.name = "" <;>
    cases hc1 : goContains kv.1.Namespace filters.Namespace <;>
    cases hc2 : goContains kv.1.Name filters.name <;>
    cases hE : selectorEmpty filters.labelSelector <;>
    cases hM : selectorMatches filters.labelSelector kv.2.Labels <;>
    simp [hA, hB, hc1, hc2, hE, hM]

/-- getManagedClusterData is the filter of the inventory by the keep
condition, one row per kept cluster. -/
theorem getManagedClusterData_eq (clusters : List (ObjectReference × ClusterInfo))
    (filters : clusterFilters) :
    getManagedClusterData clusters filters
      = (clusters.filter (keepCluster filters)).map clusterRow := by
  unfold getManagedClusterData
  suffices h : ∀ acc : List ManagedCluster,
      clusters.foldl (fun data kv =>
        if filters.Namespace != "" && !(goContains kv.1.Namespace filters.Namespace) then data
        else if filters.name != "" && !(goContains kv.1.Name filters.name) then data
        else if !(selectorEmpty filters.labelSelector)
                && !(selectorMatches filters.labelSelector kv.2.Labels) then data
        else data ++ [⟨kv.1.Namespace, kv.1.Name, kv.2⟩]) acc
      = acc ++ (clusters.filter (keepCluster filters)).map clusterRow by
    simpa using h []
  induction clusters with
  | nil => intro acc; simp
  | cons kv rest ih =>
    intro acc
    rw [List.foldl_cons, keep_step_eq]
    by_cases hk : keepCluster filters kv
    · rw [if_pos hk, ih, List.filter_cons_of_pos hk]
      simp
    · rw [if_neg hk, ih, List.filter_cons_of_neg (by simpa using hk)]

/-- Membership in the filter output, via the keep condition. -/
theorem mem_getManagedClusterData (clusters : List (ObjectReference × ClusterInfo))
    (filters : clusterFilters) (mc : ManagedCluster) :
    mc ∈ getManagedClusterData clusters filters ↔
      ∃ kv ∈ clusters, keepCluster filters kv ∧ mc = clusterRow kv := by
  rw [getManagedClusterData_eq]
  simp only [List.mem_map, List.mem_filter]
  constructor
  · rintro ⟨kv, ⟨hmem, hkeep⟩, hrow⟩
    exact ⟨kv, hmem, hkeep, hrow.symm⟩
  · rintro ⟨kv, hmem, hkeep, hrow⟩
    exact ⟨kv, ⟨hmem, hkeep⟩, hrow.symm⟩

/-- The keep condition, spelled out: each of the three filters is empty
or satisfied. -/
theorem keepCluster_iff (filters : clusterFilters) (kv : ObjectReference × ClusterInfo) :
    keepCluster filters kv = true ↔
      (filters.Namespace = "" ∨ goContains kv.1.Namespace filters.Namespace = true) ∧
      (filters.name = "" ∨ goContains kv.1.Name filters.name = true) ∧
      (filters.labelSelector = [] ∨
        ∀ r ∈ filters.labelSelector, reqMatches r kv.2.Labels = true) := by
  unfold keepCluster selectorEmpty selectorMatches
  simp [List.isEmpty_iff, List.all_eq_true]

/-- C3: the cluster filter includes a row in its output exactly for the
inventory entries whose namespace contains the namespace filter as a
case-sensitive unanchored substring (or the filter is empty), whose name
passes identically, and whose label set satisfies every requirement of
the selector (or the selector is empty); concretely, filtering on
namespace prod keeps a cluster in namespace production, drops one in
staging, and an unmatched filter yields the empty sequence, not an
error. -/
theorem claim_C3 :
    (∀ (clusters : List (ObjectReference × ClusterInfo)) (filters : clusterFilters)
        (mc : ManagedCluster),
      mc ∈ getManagedClusterData clusters filters ↔
        ∃ kv ∈ clusters,
          ((filters.Namespace = "" ∨ goContains kv.1.Namespace filters.Namespace = true) ∧
           (filters.name = "" ∨ goContains kv.1.Name filters.name = true) ∧
           (filters.labelSelector = [] ∨
             ∀ r ∈ filters.labelSelector, reqMatches r kv.2.Labels = true)) ∧
          mc = clusterRow kv) ∧
    goContains "production" "prod" = true ∧
    goContains "staging" "prod" = false ∧
    getManagedClusterData
        [(⟨"production", "c1"⟩, ⟨[]⟩), (⟨"staging", "c2"⟩, ⟨[]⟩)] ⟨"prod", "", []⟩
      = [⟨"production", "c1", ⟨[]⟩⟩] ∧
    getManagedClusterData
        [(⟨"production", "c1"⟩, ⟨[]⟩), (⟨"staging", "c2"⟩, ⟨[]⟩)] ⟨"zzz", "", []⟩
      = [] := by
  refine ⟨?_, by decide, by decide, by decide, by decide⟩
  intro clusters filters mc
  rw [mem_getManagedClusterData]
  constructor
  · rintro ⟨kv, hmem, hkeep, hrow⟩
    exact ⟨kv, hmem, (keepCluster_iff filters kv).mp hkeep, hrow⟩
  · rintro ⟨kv, hmem, hconds, hrow⟩
    exact ⟨kv, hmem, (keepCluster_iff filters kv).mpr hconds, hrow⟩

/-! ## Handler branch lemmas -/

/-- The last element of a list extended by one element. -/
theorem getLast?_append_singleton {β : Type} (l : List β) (a : β) :
    (l ++ [a]).getLast? = some a :=
  List.getLast?_concat l

/-- A windowed result never exceeds the sequence it was cut from. -/
theorem getInRange_ok_length {α : Type} {l : List α} {limit skip : Int} {res : List α}
    (h : getInRange l limit skip = Except.ok res) : res.length ≤ l.length := by
  unfold getInRange at h
  by_cases h1 : limit < 0 ∨ skip < 0
  · rw [if_pos h1] at h
    exact Except.noConfusion h
  · rw [if_neg h1] at h
    by_cases h2 : (l.length : Int) ≤ skip
    · rw [if_pos h2] at h
      have he : ([] : List α) = res := by injection h
      rw [← he]
      simp
    · rw [if_neg h2] at h
      have he : (l.drop skip.toNat).take limit.toNat = res := by injection h
      rw [← he]
      calc ((l.drop skip.toNat).take limit.toNat).length
          ≤ (l.drop skip.toNat).length := by simp [List.length_take]
        _ ≤ l.length := by simp

/-- A success payload is never among the parse-error writes. -/
theorem jsonResult_not_mem_ofErr {α : Type} (st t : Nat) (r : List α) (ws : List ErrWrite) :
    Write.jsonResult st t r ∉ ws.map Write.ofErr := by
  simp [List.mem_map, Write.ofErr]

/-- Per-cluster pipeline, authentication failure branch. -/
theorem perClusterPipeline_authFail {α : Type} (w0 : List (Write α)) (ns nm ct : String)
    (limit skip : Int) (env : PerClusterEnv α) (sortFn : List α → List α) (e : String)
    (hv : env.validateTokenRes = Except.error e) :
    perClusterPipeline w0 ns nm ct limit skip env sortFn =
      ⟨w0 ++ [Write.abortErr 401 e], [Event.evValidateToken]⟩ := by
  simp only [perClusterPipeline, hv]

/-- Per-cluster pipeline, authorization-error branch. -/
theorem perClusterPipeline_authzErr {α : Type} (w0 : List (Write α)) (ns nm ct : String)
    (limit skip : Int) (env : PerClusterEnv α) (sortFn : List α → List α) (user : String)
    (b : Bool) (e : String) (hv : env.validateTokenRes = Except.ok user)
    (hc : env.canGetRes ns nm user ct = (b, some e)) :
    perClusterPipeline w0 ns nm ct limit skip env sortFn =
      ⟨w0 ++ [Write.abortErr 401 e], [Event.evValidateToken, Event.evAuthorize]⟩ := by
  simp only [perClusterPipeline, hv, hc]

/-- Per-cluster pipeline, explicit-deny branch. -/
theorem perClusterPipeline_deny {α : Type} (w0 : List (Write α)) (ns nm ct : String)
    (limit skip : Int) (env : PerClusterEnv α) (sortFn : List α → List α) (user : String)
    (hv : env.validateTokenRes = Except.ok user)
    (hc : env.canGetRes ns nm user ct = (false, none)) :
    perClusterPipeline w0 ns nm ct limit skip env sortFn =
      ⟨w0 ++ [Write.abortErr 401 "no permissions to access this cluster"],
       [Event.evValidateToken, Event.evAuthorize]⟩ := by
  simp only [perClusterPipeline, hv, hc, Bool.not_false, if_pos]

/-- Per-cluster pipeline: the possible event traces, always in pipeline
order. -/
theorem perClusterPipeline_events {α : Type} (w0 : List (Write α)) (ns nm ct : String)
    (limit skip : Int) (env : PerClusterEnv α) (sortFn : List α → List α) :
    (perClusterPipeline w0 ns nm ct limit skip env sortFn).events = [Event.evValidateToken] ∨
    (perClusterPipeline w0 ns nm ct limit skip env sortFn).events
      = [Event.evValidateToken, Event.evAuthorize] ∨
    (perClusterPipeline w0 ns nm ct limit skip env sortFn).events
      = [Event.evValidateToken, Event.evAuthorize, Event.evFetch] := by
  unfold perClusterPipeline
  cases hv : env.validateTokenRes with
  | error e => simp
  | ok user =>
    rcases hc : env.canGetRes ns nm user ct with ⟨b, ob⟩
    cases ob with
    | some e => simp [hc]
    | none =>
      cases b with
      | false => simp [hc]
      | true =>
        cases hf : env.fetchRes ns nm ct with
        | error e => simp [hc, hf]
        | ok items =>
          cases hr : getInRange (sortFn items) limit skip with
          | error e => simp [hc, hf, hr]
          | ok res => simp [hc, hf, hr]

/-- Per-cluster pipeline: a success payload forces the all-checks-passed
branch, and its total is the pre-windowing sorted length. -/
theorem perClusterPipeline_success_inv {α : Type} (ws : List ErrWrite) (ns nm ct : String)
    (limit skip : Int) (env : PerClusterEnv α) (sortFn : List α → List α)
    (st t : Nat) (res : List α)
    (h : Write.jsonResult st t res ∈
      (perClusterPipeline (ws.map Write.ofErr) ns nm ct limit skip env sortFn).writes) :
    ∃ user items, env.validateTokenRes = Except.ok user ∧
      env.canGetRes ns nm user ct = (true, none) ∧
      env.fetchRes ns nm ct = Except.ok items ∧
      st = 200 ∧ t = (sortFn items).length ∧ res.length ≤ t := by
  unfold perClusterPipeline at h
  cases hv : env.validateTokenRes with
  | error e =>
    simp only [hv] at h
    simp [Write.ofErr] at h
  | ok user =>
    simp only [hv] at h
    rcases hc : env.canGetRes ns nm user ct with ⟨b, ob⟩
    simp only [hc] at h
    cases ob with
    | some e => simp [Write.ofErr] at h
    | none =>
      cases b with
      | false => simp [Write.ofErr] at h
      | true =>
        cases hf : env.fetchRes ns nm ct with
        | error e =>
          simp only [hf, Bool.not_true, Bool.false_eq_true, if_false] at h
          simp [Write.ofErr] at h
        | ok items =>
          simp only [hf, Bool.not_true, Bool.false_eq_true, if_false] at h
          cases hr : getInRange (sortFn items) limit skip with
          | error e =>
            simp only [hr] at h
            simp [Write.ofErr] at h
          | ok out =>
            simp only [hr, List.mem_append, List.mem_singleton] at h
            cases h with
            | inl hmem =>
              exact absurd hmem (jsonResult_not_mem_ofErr st t res ws)
            | inr heq =>
              obtain ⟨h200, ht, hres⟩ :
                  st = 200 ∧ t = (sortFn items).length ∧ res = out := by
                injection heq with h1 h2 h3
                exact ⟨h1, h2, h3⟩
              exact ⟨user, items, rfl, hc, rfl, h200, ht, by
                rw [hres, ht]
                exact getInRange_ok_length hr⟩

/-- List handler, authentication failure branch. -/
theorem listClustersHandler_authFail (q : Query) (env : ListEnv)
    (sortFn : List ManagedCluster → List ManagedCluster) (filters : clusterFilters) (e : String)
    (hf : env.filtersRes = Except.ok filters) (hv : env.validateTokenRes = Except.error e) :
    listClustersHandler q env sortFn =
      ⟨((getLimitAndSkipFromQuery q).2.2).map Write.ofErr ++ [Write.abortErr 401 e],
       [Event.evValidateToken]⟩ := by
  simp only [listClustersHandler, hf, hv]

/-- List handler, coarse-permission-error branch. -/
theorem listClustersHandler_canListErr (q : Query) (env : ListEnv)
    (sortFn : List ManagedCluster → List ManagedCluster) (filters : clusterFilters)
    (user : String) (b : Bool) (e : String)
    (hf : env.filtersRes = Except.ok filters) (hv : env.validateTokenRes = Except.ok user)
    (hc : env.canListRes = (b, some e)) :
    listClustersHandler q env sortFn =
      ⟨((getLimitAndSkipFromQuery q).2.2).map Write.ofErr ++ [Write.abortErr 401 e],
       [Event.evValidateToken, Event.evAuthorize]⟩ := by
  simp only [listClustersHandler, hf, hv, hc]

/-- List handler: the possible event traces, always in pipeline order. -/
theorem listClustersHandler_events (q : Query) (env : ListEnv)
    (sortFn : List ManagedCluster → List ManagedCluster) :
    (listClustersHandler q env sortFn).events = [] ∨
    (listClustersHandler q env sortFn).events = [Event.evValidateToken] ∨
    (listClustersHandler q env sortFn).events = [Event.evValidateToken, Event.evAuthorize] ∨
    (listClustersHandler q env sortFn).events
      = [Event.evValidateToken, Event.evAuthorize, Event.evFetch] := by
  unfold listClustersHandler
  cases hf : env.filtersRes with
  | error e => simp
  | ok filters =>
    cases hv : env.validateTokenRes with
    | error e => simp
    | ok user =>
      rcases hc : env.canListRes with ⟨b, ob⟩
      cases ob with
      | some e => simp [hc]
      | none =>
        cases hfe : env.fetchRes user b with
        | error e => simp [hc, hfe]
        | ok clusters =>
          cases hr : getInRange (sortFn (getManagedClusterData clusters filters))
              (getLimitAndSkipFromQuery q).1 (getLimitAndSkipFromQuery q).2.1 with
          | error e => simp [hc, hfe, hr]
          | ok res => simp [hc, hfe, hr]

/-- List handler: a success payload forces the all-checks-passed branch,
and its total is the pre-windowing filtered and sorted length,
independent of limit and skip. -/
theorem listClustersHandler_success_inv (q : Query) (env : ListEnv)
    (sortFn : List ManagedCluster → List ManagedCluster)
    (st t : Nat) (res : List ManagedCluster)
    (h : Write.jsonResult st t res ∈ (listClustersHandler q env sortFn).writes) :
    ∃ filters user canListAll clusters,
      env.filtersRes = Except.ok filters ∧ env.validateTokenRes = Except.ok user ∧
      env.canListRes = (canListAll, none) ∧ env.fetchRes user canListAll = Except.ok clusters ∧
      st = 200 ∧ t = (sortFn (getManagedClusterData clusters filters)).length ∧
      res.length ≤ t := by
  unfold listClustersHandler at h
  cases hf : env.filtersRes with
  | error e =>
    simp only [hf] at h
    simp [Write.ofErr] at h
  | ok filters =>
    simp only [hf] at h
    cases hv : env.validateTokenRes with
    | error e =>
      simp only [hv] at h
      simp [Write.ofErr] at h
    | ok user =>
      simp only [hv] at h
      rcases hc : env.canListRes with ⟨b, ob⟩
      simp only [hc] at h
      cases ob with
      | some e => simp [Write.ofErr] at h
      | none =>
        cases hfe : env.fetchRes user b with
        | error e =>
          simp only [hfe] at h
          simp [Write.ofErr] at h
        | ok clusters =>
          simp only [hfe] at h
          cases hr : getInRange (sortFn (getManagedClusterData clusters filters))
              (getLimitAndSkipFromQuery q).1 (getLimitAndSkipFromQuery q).2.1 with
          | error e =>
            simp only [hr] at h
            simp [Write.ofErr] at h
          | ok out =>
            simp only [hr, List.mem_append, List.mem_singleton] at h
            cases h with
            | inl hmem =>
              exact absurd hmem
                (jsonResult_not_mem_ofErr st t res (getLimitAndSkipFromQuery q).2.2)
            | inr heq =>
              obtain ⟨h200, ht, hres⟩ :
                  st = 200 ∧ t = (sortFn (getManagedClusterData clusters filters)).length ∧
                    res = out := by
                injection heq with h1 h2 h3
                exact ⟨h1, h2, h3⟩
              exact ⟨filters, user, b, clusters, rfl, rfl, rfl, hfe, h200, ht, by
                rw [hres, ht]
                exact getInRange_ok_length hr⟩

/-- Status handler, authentication failure branch. -/
theorem statusHandler_authFail (q : Query) (env : StatusEnv)
    (sortFn : List FlattenedProfileStatus → List FlattenedProfileStatus) (e : String)
    (hv : env.validateTokenRes = Except.error e) :
    getClusterStatusHandler q env sortFn =
      ⟨((getFailedOnlyFromQuery q).2 ++ (getLimitAndSkipFromQuery q).2.2
          ++ (getClusterFromQuery q).writes).map Write.ofErr ++ [Write.abortErr 401 e],
       [Event.evValidateToken]⟩ := by
  simp only [getClusterStatusHandler, hv]

/-- Status handler, authorization-error branch. -/
theorem statusHandler_authzErr (q : Query) (env : StatusEnv)
    (sortFn : List FlattenedProfileStatus → List FlattenedProfileStatus)
    (user : String) (b : Bool) (e : String)
    (hv : env.validateTokenRes = Except.ok user)
    (hc : env.canGetRes (getClusterFromQuery q).nspace (getClusterFromQuery q).name user
      (getClusterFromQuery q).ctype = (b, some e)) :
    getClusterStatusHandler q env sortFn =
      ⟨((getFailedOnlyFromQuery q).2 ++ (getLimitAndSkipFromQuery q).2.2
          ++ (getClusterFromQuery q).writes).map Write.ofErr ++ [Write.abortErr 401 e],
       [Event.evValidateToken, Event.evAuthorize]⟩ := by
  simp only [getClusterStatusHandler, hv, hc]

/-- Status handler, explicit-deny branch. -/
theorem statusHandler_deny (q : Query) (env : StatusEnv)
    (sortFn : List FlattenedProfileStatus → List FlattenedProfileStatus) (user : String)
    (hv : env.validateTokenRes = Except.ok user)
    (hc : env.canGetRes (getClusterFromQuery q).nspace (getClusterFromQuery q).name user
      (getClusterFromQuery q).ctype = (false, none)) :
    getClusterStatusHandler q env sortFn =
      ⟨((getFailedOnlyFromQuery q).2 ++ (getLimitAndSkipFromQuery q).2.2
          ++ (getClusterFromQuery q).writes).map Write.ofErr
        ++ [Write.abortErr 401 "no permissions to access this cluster"],
       [Event.evValidateToken, Event.evAuthorize]⟩ := by
  simp only [getClusterStatusHandler, hv, hc, Bool.not_false, if_pos]

/-- Status handler: the possible event traces, always in pipeline
order. -/
theorem statusHandler_events (q : Query) (env : StatusEnv)
    (sortFn : List FlattenedProfileStatus → List FlattenedProfileStatus) :
    (getClusterStatusHandler q env sortFn).events = [Event.evValidateToken] ∨
    (getClusterStatusHandler q env sortFn).events
      = [Event.evValidateToken, Event.evAuthorize] ∨
    (getClusterStatusHandler q env sortFn).events
      = [Event.evValidateToken, Event.evAuthorize, Event.evFetch] := by
  unfold getClusterStatusHandler
  cases hv : env.validateTokenRes with
  | error e => simp
  | ok user =>
    rcases hc : env.canGetRes (getClusterFromQuery q).nspace (getClusterFromQuery q).name user
        (getClusterFromQuery q).ctype with ⟨b, ob⟩
    cases ob with
    | some e => simp [hc]
    | none =>
      cases b with
      | false => simp [hc]
      | true =>
        cases hr : getInRange
            (sortFn (flattenProfileStatuses
              (env.statuses (getClusterFromQuery q).nspace (getClusterFromQuery q).name
                (getClusterFromQuery q).ctype) (getFailedOnlyFromQuery q).1))
            (getLimitAndSkipFromQuery q).1 (getLimitAndSkipFromQuery q).2.1 with
        | error e => simp [hc, hr]
        | ok res => simp [hc, hr]

/-- Status handler: a success payload forces the all-checks-passed
branch, and its totalResources is the pre-windowing flattened length,
independent of limit and skip. -/
theorem statusHandler_success_inv (q : Query) (env : StatusEnv)
    (sortFn : List FlattenedProfileStatus → List FlattenedProfileStatus)
    (st t : Nat) (res : List FlattenedProfileStatus)
    (h : Write.jsonResult st t res ∈ (getClusterStatusHandler q env sortFn).writes) :
    ∃ user, env.validateTokenRes = Except.ok user ∧
      env.canGetRes (getClusterFromQuery q).nspace (getClusterFromQuery q).name user
        (getClusterFromQuery q).ctype = (true, none) ∧
      st = 200 ∧
      t = (sortFn (flattenProfileStatuses
            (env.statuses (getClusterFromQuery q).nspace (getClusterFromQuery q).name
              (getClusterFromQuery q).ctype) (getFailedOnlyFromQuery q).1)).length ∧
      res.length ≤ t := by
  unfold getClusterStatusHandler at h
  cases hv : env.validateTokenRes with
  | error e =>
    simp only [hv] at h
    simp [Write.ofErr] at h
  | ok user =>
    simp only [hv] at h
    rcases hc : env.canGetRes (getClusterFromQuery q).nspace (getClusterFromQuery q).name user
        (getClusterFromQuery q).ctype with ⟨b, ob⟩
    simp only [hc] at h
    cases ob with
    | some e => simp [Write.ofErr] at h
    | none =>
      cases b with
      | false => simp [Write.ofErr] at h
      | true =>
        cases hr : getInRange
            (sortFn (flattenProfileStatuses
              (env.statuses (getClusterFromQuery q).nspace (getClusterFromQuery q).name
                (getClusterFromQuery q).ctype) (getFailedOnlyFromQuery q).1))
            (getLimitAndSkipFromQuery q).1 (getLimitAndSkipFromQuery q).2.1 with
        | error e =>
          simp only [hr, Bool.not_true, Bool.false_eq_true, if_false] at h
          simp [Write.ofErr] at h
        | ok out =>
          simp only [hr, Bool.not_true, Bool.false_eq_true, if_false,
            List.mem_append, List.mem_singleton] at h
          cases h with
          | inl hmem =>
            exact absurd hmem (jsonResult_not_mem_ofErr st t res
              ((getFailedOnlyFromQuery q).2 ++ (getLimitAndSkipFromQuery q).2.2
                ++ (getClusterFromQuery q).writes))
          | inr heq =>
            obtain ⟨h200, ht, hres⟩ : st = 200 ∧
                t = (sortFn (flattenProfileStatuses
                  (env.statuses (getClusterFromQuery q).nspace (getClusterFromQuery q).name
                    (getClusterFromQuery q).ctype) (getFailedOnlyFromQuery q).1)).length ∧
                res = out := by
              injection heq with h1 h2 h3
              exact ⟨h1, h2, h3⟩
            exact ⟨user, rfl, hc, h200, ht, by
              rw [hres, ht]
              exact getInRange_ok_length hr⟩

/-- If a fetch event occurs and the trace is one of the three pipeline
prefixes, it is the full authenticate-authorize-fetch trace. -/
theorem events_order_of_mem {α : Type} {out : HandlerOut α}
    (hall : out.events = [Event.evValidateToken] ∨
      out.events = [Event.evValidateToken, Event.evAuthorize] ∨
      out.events = [Event.evValidateToken, Event.evAuthorize, Event.evFetch])
    (hmem : Event.evFetch ∈ out.events) :
    out.events = [Event.evValidateToken, Event.evAuthorize, Event.evFetch] := by
  rcases hall with h | h | h
  · rw [h] at hmem
    exact absurd hmem (by decide)
  · rw [h] at hmem
    exact absurd hmem (by decide)
  · exact h

/-- Same, allowing the empty trace of a parse abort. -/
theorem events_order_of_mem4 {α : Type} {out : HandlerOut α}
    (hall : out.events = [] ∨ out.events = [Event.evValidateToken] ∨
      out.events = [Event.evValidateToken, Event.evAuthorize] ∨
      out.events = [Event.evValidateToken, Event.evAuthorize, Event.evFetch])
    (hmem : Event.evFetch ∈ out.events) :
    out.events = [Event.evValidateToken, Event.evAuthorize, Event.evFetch] := by
  rcases hall with h | hall
  · rw [h] at hmem
    exact absurd hmem (by decide)
  · exact events_order_of_mem hall hmem

/-- C2: in every handler, within one request, authentication strictly
precedes authorization, which strictly precedes inventory access — a
fetch event only ever occurs as the third step of the full trace; an
authentication failure aborts with a 401 final write and no fetch event,
and on the per-cluster endpoints (helm charts, resources, cluster
status) a get-check error or explicit deny likewise aborts with a 401
final write before any fetch. -/
theorem claim_C2 :
    (∀ q env sortFn filters e, env.filtersRes = Except.ok filters →
      env.validateTokenRes = Except.error e →
      (listClustersHandler q env sortFn).writes.getLast? = some (Write.abortErr 401 e) ∧
      Event.evFetch ∉ (listClustersHandler q env sortFn).events) ∧
    (∀ q env sortFn, Event.evFetch ∈ (listClustersHandler q env sortFn).events →
      (listClustersHandler q env sortFn).events
        = [Event.evValidateToken, Event.evAuthorize, Event.evFetch]) ∧
    (∀ (α : Type) (q : Query) (env : PerClusterEnv α) sortFn e,
      env.validateTokenRes = Except.error e →
      ((getDeployedHelmChartsHandler q env sortFn).writes.getLast?
          = some (Write.abortErr 401 e) ∧
        Event.evFetch ∉ (getDeployedHelmChartsHandler q env sortFn).events) ∧
      ((getDeployedResourcesHandler q env sortFn).writes.getLast?
          = some (Write.abortErr 401 e) ∧
        Event.evFetch ∉ (getDeployedResourcesHandler q env sortFn).events)) ∧
    (∀ (α : Type) (q : Query) (env : PerClusterEnv α) sortFn user b e,
      env.validateTokenRes = Except.ok user →
      env.canGetRes (getClusterFromQuery q).nspace (getClusterFromQuery q).name user
        (getClusterFromQuery q).ctype = (b, some e) →
      ((getDeployedHelmChartsHandler q env sortFn).writes.getLast?
          = some (Write.abortErr 401 e) ∧
        Event.evFetch ∉ (getDeployedHelmChartsHandler q env sortFn).events) ∧
      ((getDeployedResourcesHandler q env sortFn).writes.getLast?
          = some (Write.abortErr 401 e) ∧
        Event.evFetch ∉ (getDeployedResourcesHandler q env sortFn).events)) ∧
    (∀ (α : Type) (q : Query) (env : PerClusterEnv α) sortFn user,
      env.validateTokenRes = Except.ok user →
      env.canGetRes (getClusterFromQuery q).nspace (getClusterFromQuery q).name user
        (getClusterFromQuery q).ctype = (false, none) →
      ((getDeployedHelmChartsHandler q env sortFn).writes.getLast?
          = some (Write.abortErr 401 "no permissions to access this cluster") ∧
        Event.evFetch ∉ (getDeployedHelmChartsHandler q env sortFn).events) ∧
      ((getDeployedResourcesHandler q env sortFn).writes.getLast?
          = some (Write.abortErr 401 "no permissions to access this cluster") ∧
        Event.evFetch ∉ (getDeployedResourcesHandler q env sortFn).events)) ∧
    (∀ (α : Type) (q : Query) (env : PerClusterEnv α) sortFn,
      (Event.evFetch ∈ (getDeployedHelmChartsHandler q env sortFn).events →
        (getDeployedHelmChartsHandler q env sortFn).events
          = [Event.evValidateToken, Event.evAuthorize, Event.evFetch]) ∧
      (Event.evFetch ∈ (getDeployedResourcesHandler q env sortFn).events →
        (getDeployedResourcesHandler q env sortFn).events
          = [Event.evValidateToken, Event.evAuthorize, Event.evFetch])) ∧
    (∀ (q : Query) (env : StatusEnv) sortFn e,
      env.validateTokenRes = Except.error e →
      (getClusterStatusHandler q env sortFn).writes.getLast? = some (Write.abortErr 401 e) ∧
      Event.evFetch ∉ (getClusterStatusHandler q env sortFn).events) ∧
    (∀ (q : Query) (env : StatusEnv) sortFn user b e,
      env.validateTokenRes = Except.ok user →
      env.canGetRes (getClusterFromQuery q).nspace (getClusterFromQuery q).name user
        (getClusterFromQuery q).ctype = (b, some e) →
      (getClusterStatusHandler q env sortFn).writes.getLast? = some (Write.abortErr 401 e) ∧
      Event.evFetch ∉ (getClusterStatusHandler q env sortFn).events) ∧
    (∀ (q : Query) (env : StatusEnv) sortFn user,
      env.validateTokenRes = Except.ok user →
      env.canGetRes (getClusterFromQuery q).nspace (getClusterFromQuery q).name user
        (getClusterFromQuery q).ctype = (false, none) →
      (getClusterStatusHandler q env sortFn).writes.getLast?
        = some (Write.abortErr 401 "no permissions to access this cluster") ∧
      Event.evFetch ∉ (getClusterStatusHandler q env sortFn).events) ∧
    (∀ (q : Query) (env : StatusEnv) sortFn,
      Event.evFetch ∈ (getClusterStatusHandler q env sortFn).events →
      (getClusterStatusHandler q env sortFn).events
        = [Event.evValidateToken, Event.evAuthorize, Event.evFetch]) := by
  refine ⟨?_, ?_, ?_, ?_, ?_, ?_, ?_, ?_, ?_, ?_⟩
  · intro q env sortFn filters e hf hv
    rw [listClustersHandler_authFail q env sortFn filters e hf hv]
    exact ⟨getLast?_append_singleton _ _, by simp⟩
  · intro q env sortFn hmem
    exact events_order_of_mem4 (listClustersHandler_events q env sortFn) hmem
  · intro α q env sortFn e hv
    constructor
    · unfold getDeployedHelmChartsHandler
      rw [perClusterPipeline_authFail _ _ _ _ _ _ env sortFn e hv]
      exact ⟨getLast?_append_singleton _ _, by simp⟩
    · unfold getDeployedResourcesHandler
      rw [perClusterPipeline_authFail _ _ _ _ _ _ env sortFn e hv]
      exact ⟨getLast?_append_singleton _ _, by simp⟩
  · intro α q env sortFn user b e hv hc
    constructor
    · unfold getDeployedHelmChartsHandler
      rw [perClusterPipeline_authzErr _ _ _ _ _ _ env sortFn user b e hv hc]
      exact ⟨getLast?_append_singleton _ _, by simp⟩
    · unfold getDeployedResourcesHandler
      rw [perClusterPipeline_authzErr _ _ _ _ _ _ env sortFn user b e hv hc]
      exact ⟨getLast?_append_singleton _ _, by simp⟩
  · intro α q env sortFn user hv hc
    constructor
    · unfold getDeployedHelmChartsHandler
      rw [perClusterPipeline_deny _ _ _ _ _ _ env sortFn user hv hc]
      exact ⟨getLast?_append_singleton _ _, by simp⟩
    · unfold getDeployedResourcesHandler
      rw [perClusterPipeline_deny _ _ _ _ _ _ env sortFn user hv hc]
      exact ⟨getLast?_append_singleton _ _, by simp⟩
  · intro α q env sortFn
    constructor
    · intro hmem
      exact events_order_of_mem (perClusterPipeline_events _ _ _ _ _ _ env sortFn) hmem
    · intro hmem
      exact events_order_of_mem (perClusterPipeline_events _ _ _ _ _ _ env sortFn) hmem
  · intro q env sortFn e hv
    rw [statusHandler_authFail q env sortFn e hv]
    exact ⟨getLast?_append_singleton _ _, by simp⟩
  · intro q env sortFn user b e hv hc
    rw [statusHandler_authzErr q env sortFn user b e hv hc]
    exact ⟨getLast?_append_singleton _ _, by simp⟩
  · intro q env sortFn user hv hc
    rw [statusHandler_deny q env sortFn user hv hc]
    exact ⟨getLast?_append_singleton _ _, by simp⟩
  · intro q env sortFn hmem
    exact events_order_of_mem (statusHandler_events q env sortFn) hmem

/-- C2 witness: the pipeline theorem applied at concrete environments — a
failed token validation on a list request and an explicit deny on a
per-cluster request. -/
theorem claim_C2_witness :
    ((listClustersHandler emptyQuery envListAuthFail id).writes.getLast?
        = some (Write.abortErr 401 "failed to validate token") ∧
      Event.evFetch ∉ (listClustersHandler emptyQuery envListAuthFail id).events) ∧
    ((getDeployedHelmChartsHandler perClusterQuery envPerClusterDeny id).writes.getLast?
        = some (Write.abortErr 401 "no permissions to access this cluster") ∧
      Event.evFetch ∉ (getDeployedHelmChartsHandler perClusterQuery envPerClusterDeny id).events) :=
  ⟨claim_C2.1 emptyQuery envListAuthFail id ⟨"", "", []⟩ "failed to validate token" rfl rfl,
   (claim_C2.2.2.2.2.1 Nat perClusterQuery envPerClusterDeny id "alice" rfl rfl).1⟩

/-- C5 evaluation at the failing input: a malformed skip (or limit)
parameter makes the parser write its 400 error, but the parser cannot
signal failure to the handler, which continues — fetches the inventory
and writes the success payload, with real cluster rows (malformed skip)
or the total count (malformed limit), into the same response.  A negative
limit, by contrast, aborts 400 at the windowing stage with no payload. -/
theorem claim_C5_eval :
    (listClustersHandler ⟨"", "xyz", "", "", "", ""⟩ envListOk id).writes =
      [Write.jsonErr 400 "invalid skip parameter",
       Write.jsonResult 200 3
         [⟨"team-a", "c1", ⟨[]⟩⟩, ⟨"team-b", "c2", ⟨[]⟩⟩, ⟨"team-c", "c3", ⟨[]⟩⟩]] ∧
    (listClustersHandler ⟨"abc", "", "", "", "", ""⟩ envListOk id).writes =
      [Write.jsonErr 400 "invalid limit parameter", Write.jsonResult 200 3 []] ∧
    (listClustersHandler ⟨"-1", "", "", "", "", ""⟩ envListOk id).writes =
      [Write.abortErr 400 "invalid range"] := by
  refine ⟨by decide, by decide, by decide⟩

/-- C6: every successful listing response carries as its total the length
of the full filtered and sorted sequence before windowing — an expression
in which limit and skip do not occur — and the windowed array never
exceeds it. -/
theorem claim_C6 :
    (∀ q env sortFn st t res,
      Write.jsonResult st t res ∈ (listClustersHandler q env sortFn).writes →
      ∃ filters user canListAll clusters,
        env.filtersRes = Except.ok filters ∧ env.validateTokenRes = Except.ok user ∧
        env.canListRes = (canListAll, none) ∧
        env.fetchRes user canListAll = Except.ok clusters ∧
        st = 200 ∧ t = (sortFn (getManagedClusterData clusters filters)).length ∧
        res.length ≤ t) ∧
    (∀ (α : Type) (q : Query) (env : PerClusterEnv α) sortFn st t res,
      Write.jsonResult st t res ∈ (getDeployedHelmChartsHandler q env sortFn).writes →
      ∃ user items, env.validateTokenRes = Except.ok user ∧
        env.canGetRes (getClusterFromQuery q).nspace (getClusterFromQuery q).name user
          (getClusterFromQuery q).ctype = (true, none) ∧
        env.fetchRes (getClusterFromQuery q).nspace (getClusterFromQuery q).name
          (getClusterFromQuery q).ctype = Except.ok items ∧
        st = 200 ∧ t = (sortFn items).length ∧ res.length ≤ t) ∧
    (∀ (α : Type) (q : Query) (env : PerClusterEnv α) sortFn st t res,
      Write.jsonResult st t res ∈ (getDeployedResourcesHandler q env sortFn).writes →
      ∃ user items, env.validateTokenRes = Except.ok user ∧
        env.canGetRes (getClusterFromQuery q).nspace (getClusterFromQuery q).name user
          (getClusterFromQuery q).ctype = (true, none) ∧
        env.fetchRes (getClusterFromQuery q).nspace (getClusterFromQuery q).name
          (getClusterFromQuery q).ctype = Except.ok items ∧
        st = 200 ∧ t = (sortFn items).length ∧ res.length ≤ t) ∧
    (∀ (q : Query) (env : StatusEnv) sortFn st t res,
      Write.jsonResult st t res ∈ (getClusterStatusHandler q env sortFn).writes →
      ∃ user, env.validateTokenRes = Except.ok user ∧
        env.canGetRes (getClusterFromQuery q).nspace (getClusterFromQuery q).name user
          (getClusterFromQuery q).ctype = (true, none) ∧
        st = 200 ∧
        t = (sortFn (flattenProfileStatuses
              (env.statuses (getClusterFromQuery q).nspace (getClusterFromQuery q).name
                (getClusterFromQuery q).ctype) (getFailedOnlyFromQuery q).1)).length ∧
        res.length ≤ t) := by
  refine ⟨?_, ?_, ?_, ?_⟩
  · intro q env sortFn st t res h
    exact listClustersHandler_success_inv q env sortFn st t res h
  · intro α q env sortFn st t res h
    unfold getDeployedHelmChartsHandler at h
    exact perClusterPipeline_success_inv _ _ _ _ _ _ env sortFn st t res h
  · intro α q env sortFn st t res h
    unfold getDeployedResourcesHandler at h
    exact perClusterPipeline_success_inv _ _ _ _ _ _ env sortFn st t res h
  · intro q env sortFn st t res h
    exact statusHandler_success_inv q env sortFn st t res h

/-- C6 witness: the total theorem applied at a concrete request with
limit 1 over the three-cluster inventory — the total stays 3 while the
window holds one row. -/
theorem claim_C6_witness :
    ∃ filters user canListAll clusters,
      envListOk.filtersRes = Except.ok filters ∧
      envListOk.validateTokenRes = Except.ok user ∧
      envListOk.canListRes = (canListAll, none) ∧
      envListOk.fetchRes user canListAll = Except.ok clusters ∧
      (200 : Nat) = 200 ∧
      (3 : Nat) = (id (getManagedClusterData clusters filters)).length ∧
      ([(⟨"team-a", "c1", ⟨[]⟩⟩ : ManagedCluster)]).length ≤ 3 :=
  claim_C6.1 ⟨"1", "", "", "", "", ""⟩ envListOk id 200 3 [⟨"team-a", "c1", ⟨[]⟩⟩]
    (by decide)

/-- C8: the authorization functions return transport and API failures as
a non-nil error alongside the boolean verdict — a clientset failure or a
review-call failure always surfaces as some error, and a none error means
the verdict is the review's own Allowed answer; canGetCluster always
stands for one of the two underlying checks; and the calling handlers
surface a check error by aborting with a 401 carrying that error — on
the list endpoints an explicit deny is not an abort at all (the pipeline
proceeds to the scoped fetch), and on the per-cluster endpoints a deny
aborts with the fixed no-permissions message instead of the error. -/
theorem claim_C8 :
    (∀ env user e, env.newClientset = Except.error e →
      canListSveltosClusters env user = (false, some e) ∧
      canListCAPIClusters env user = (false, some e) ∧
      ∀ ns nm t, canGetCluster env ns nm user t = (false, some e)) ∧
    (∀ env user e u, env.newClientset = Except.ok u →
      (env.sarCreate (sarListSveltos user) = Except.error e →
        canListSveltosClusters env user = (false, some e)) ∧
      (env.sarCreate (sarListCapi user) = Except.error e →
        canListCAPIClusters env user = (false, some e)) ∧
      (∀ ns nm, env.sarCreate (sarGetSveltos ns nm user) = Except.error e →
        canGetSveltosCluster env ns nm user = (false, some e)) ∧
      (∀ ns nm, env.sarCreate (sarGetCapi ns nm user) = Except.error e →
        canGetCAPICluster env ns nm user = (false, some e))) ∧
    (∀ env ns nm user t,
      canGetCluster env ns nm user t = canGetCAPICluster env ns nm user ∨
      canGetCluster env ns nm user t = canGetSveltosCluster env ns nm user) ∧
    (∀ env user b u, env.newClientset = Except.ok u →
      (env.sarCreate (sarListSveltos user) = Except.ok b →
        canListSveltosClusters env user = (b, none)) ∧
      (env.sarCreate (sarListCapi user) = Except.ok b →
        canListCAPIClusters env user = (b, none))) ∧
    (∀ q env sortFn filters user b e, env.filtersRes = Except.ok filters →
      env.validateTokenRes = Except.ok user → env.canListRes = (b, some e) →
      (listClustersHandler q env sortFn).writes.getLast?
        = some (Write.abortErr 401 e)) ∧
    (∀ q env sortFn filters user, env.filtersRes = Except.ok filters →
      env.validateTokenRes = Except.ok user → env.canListRes = (false, none) →
      Event.evFetch ∈ (listClustersHandler q env sortFn).events) ∧
    (∀ (α : Type) (q : Query) (env : PerClusterEnv α) sortFn user b e,
      env.validateTokenRes = Except.ok user →
      env.canGetRes (getClusterFromQuery q).nspace (getClusterFromQuery q).name user
        (getClusterFromQuery q).ctype = (b, some e) →
      (getDeployedHelmChartsHandler q env sortFn).writes.getLast?
        = some (Write.abortErr 401 e)) := by
  refine ⟨?_, ?_, ?_, ?_, ?_, ?_, ?_⟩
  · intro env user e h
    refine ⟨?_, ?_, ?_⟩
    · simp [canListSveltosClusters, h]
    · simp [canListCAPIClusters, h]
    · intro ns nm t
      unfold canGetCluster
      by_cases ht : t = clusterTypeCapi
      · rw [if_pos ht]
        simp [canGetCAPICluster, h]
      · rw [if_neg ht]
        simp [canGetSveltosCluster, h]
  · intro env user e u h
    refine ⟨?_, ?_, ?_, ?_⟩
    · intro hs
      simp [canListSveltosClusters, h, hs]
    · intro hs
      simp [canListCAPIClusters, h, hs]
    · intro ns nm hs
      simp [canGetSveltosCluster, h, hs]
    · intro ns nm hs
      simp [canGetCAPICluster, h, hs]
  · intro env ns nm user t
    unfold canGetCluster
    by_cases ht : t = clusterTypeCapi
    · left
      rw [if_pos ht]
    · right
      rw [if_neg ht]
  · intro env user b u h
    refine ⟨?_, ?_⟩
    · intro hs
      simp [canListSveltosClusters, h, hs]
    · intro hs
      simp [canListCAPIClusters, h, hs]
  · intro q env sortFn filters user b e hf hv hc
    rw [listClustersHandler_canListErr q env sortFn filters user b e hf hv hc]
    exact getLast?_append_singleton _ _
  · intro q env sortFn filters user hf hv hc
    unfold listClustersHandler
    simp only [hf, hv, hc]
    cases hfe : env.fetchRes user false with
    | error e => simp
    | ok clusters =>
      cases hr : getInRange (sortFn (getManagedClusterData clusters filters))
          (getLimitAndSkipFromQuery q).1 (getLimitAndSkipFromQuery q).2.1 with
      | error e => simp [hr]
      | ok res => simp [hr]
  · intro α q env sortFn user b e hv hc
    unfold getDeployedHelmChartsHandler
    rw [perClusterPipeline_authzErr _ _ _ _ _ _ env sortFn user b e hv hc]
    exact getLast?_append_singleton _ _

/-- C8 witness: the error-propagation theorem applied at environments
with a failing clientset and a failing review call, and the surfacing
theorem applied at a list request whose permission check fails. -/
theorem claim_C8_witness :
    canListSveltosClusters envClientsetFail "alice" = (false, some "no clientset") ∧
    canListCAPIClusters envSarFail "alice" = (false, some "transport failure") ∧
    (listClustersHandler emptyQuery envListCanListFail id).writes.getLast?
      = some (Write.abortErr 401 "transport failure") :=
  ⟨(claim_C8.1 envClientsetFail "alice" "no clientset" rfl).1,
   ((claim_C8.2.1 envSarFail "alice" "transport failure" () rfl).2.1 rfl),
   claim_C8.2.2.2.2.1 emptyQuery envListCanListFail id ⟨"", "", []⟩ "alice" false
     "transport failure" rfl rfl rfl⟩

end UIBackend
